import Mathlib

/-!
Shallow embedding of the iterable-cpp iteration-adapter library.

Source files embedded:
- `src/include/iterable/iterator.h`: `Iterable::Detail::IteratorCore`, the
  CRTP iterator over a host container.  It stores a pointer to the host
  (`D *data_`) and a position (`int current_`); all arithmetic operators
  accept `std::ptrdiff_t` offsets, so results are narrowed back to the
  width of `int` (32-bit two's complement) when stored.
- `src/include/iterable/iterable.h`: the `Iterable::For` mixin, providing
  `begin`/`end`/`cbegin`/`cend`.  When the host exposes a public member
  `data_`, those entry points forward to the native iterators of that
  member; otherwise they synthesize `Iterator<D>(this, 0)` and
  `Iterator<D>(this, Length())` (with `Iterator<const D>` on const paths).
- `src/include/iterable.h`: the second, stand-alone `Iterable<D>::Iterator`
  variant, which stores its position as `std::uint64_t` and keeps a
  reference `Self &self_` to the host.

Element references are modelled by identity: a `Ref` records which host
object is accessed, at which index, and whether the access path is const
(`Detail::HandledReturn` adds `const` exactly when the container type `D`
is const-qualified).  Machine integers are modelled as `Int`/`Nat` with
explicit two's-complement reduction where the code narrows or wraps.
-/

namespace IterableCpp

/-! ### Machine integer widths -/

/-- Bound of a 32-bit `int`: 2 to the power 31. -/
def int32Bound : Int := 2147483648

/-- Modulus of a 32-bit `int`: 2 to the power 32. -/
def int32Modulus : Int := 4294967296

/-- Bound of a 64-bit `std::ptrdiff_t`: 2 to the power 63. -/
def int64Bound : Int := 9223372036854775808

/-- Modulus of 64-bit integers: 2 to the power 64. -/
def int64Modulus : Int := 18446744073709551616

/-- Modulus of `std::uint64_t` as a natural number. -/
def uint64Modulus : Nat := 18446744073709551616

/-- Reduce a mathematical integer to the value of a 32-bit two's complement
`int` holding it (the effect of narrowing to `int current_`). -/
def wrap32 (x : Int) : Int := (x + int32Bound) % int32Modulus - int32Bound

/-- Reduce a mathematical integer to a 64-bit two's complement value (the
domain in which `std::ptrdiff_t` sums are formed). -/
def wrap64 (x : Int) : Int := (x + int64Bound) % int64Modulus - int64Bound

/-- Reduce a mathematical integer to a `std::uint64_t` value. -/
def uwrap64 (x : Int) : Nat := (x % int64Modulus).toNat

/-! ### Element references and hosts -/

/-- Identity of an element reference produced by the adapters: the host
object it points into, the index handed to the host indexed accessor, and
whether the reference is const (`Detail::HandledReturn`). -/
structure Ref where
  host : Nat
  index : Int
  isConst : Bool
deriving DecidableEq

/-- An abstract host container: an object identity and a length
(`Length()` / `GetLength()`, a non-negative count of elements). -/
structure Host where
  id : Nat
  length : Nat
deriving DecidableEq

/-- Reference returned by the host mutable indexed accessor at index `k`. -/
def Host.refAt (h : Host) (k : Int) : Ref := ⟨h.id, k, false⟩

/-- Reference returned by the host const indexed accessor at index `k`. -/
def Host.refAtConst (h : Host) (k : Int) : Ref := ⟨h.id, k, true⟩

/-! ### IteratorCore (src/include/iterable/iterator.h) -/

/-- State of `Detail::IteratorCore<D, I>`: the host pointer `D *data_`,
whether `D` is const-qualified (this decides `Detail::HandledReturn<D>`),
and the stored position `int current_`. -/
structure IteratorCore where
  data_ : Nat
  constD : Bool
  current_ : Int
deriving DecidableEq

namespace IteratorCore

/-- Prefix increment: `current_++` on the `int` field. -/
def inc (i : IteratorCore) : IteratorCore :=
  { i with current_ := wrap32 (i.current_ + 1) }

/-- Postfix increment: returns the copy taken before advancing together
with the advanced iterator state. -/
def incPost (i : IteratorCore) : IteratorCore × IteratorCore := (i, inc i)

/-- Prefix decrement: `current_--` on the `int` field. -/
def dec (i : IteratorCore) : IteratorCore :=
  { i with current_ := wrap32 (i.current_ - 1) }

/-- Postfix decrement: returns the copy taken before stepping back
together with the stepped-back iterator state. -/
def decPost (i : IteratorCore) : IteratorCore × IteratorCore := (i, dec i)

/-- Equality: `current_ == other.current_`. -/
def eqb (i j : IteratorCore) : Bool := decide (i.current_ = j.current_)

/-- Inequality: `current_ != other.current_`. -/
def neb (i j : IteratorCore) : Bool := decide (¬ i.current_ = j.current_)

/-- Strict less-than: `current_ < other.current_`. -/
def ltb (i j : IteratorCore) : Bool := decide (i.current_ < j.current_)

/-- Strict greater-than: `current_ > other.current_`. -/
def gtb (i j : IteratorCore) : Bool := decide (j.current_ < i.current_)

/-- Relaxed less-than: `current_ <= other.current_`. -/
def leb (i j : IteratorCore) : Bool := decide (i.current_ ≤ j.current_)

/-- Relaxed greater-than: `current_ >= other.current_`. -/
def geb (i j : IteratorCore) : Bool := decide (j.current_ ≤ i.current_)

/-- Dereference: `(*data_)[current_]`, a reference into the host at the
stored position, const exactly when `D` is const. -/
def deref (i : IteratorCore) : Ref := ⟨i.data_, i.current_, i.constD⟩

/-- Member access `operator->`: the address of `operator*`. -/
def arrow (i : IteratorCore) : Ref := deref i

/-- Addition `iterator + n`: the sum `current_ + n` is formed in
`std::ptrdiff_t` and narrowed to `int` by the `I(data_, ...)` constructor. -/
def add (i : IteratorCore) (n : Int) : IteratorCore :=
  { i with current_ := wrap32 (wrap64 (i.current_ + n)) }

/-- Subtraction `iterator - n`, symmetric to `add`. -/
def sub (i : IteratorCore) (n : Int) : IteratorCore :=
  { i with current_ := wrap32 (wrap64 (i.current_ - n)) }

/-- Difference between iterators: `this->current_ - other.current_`,
formed in `int` arithmetic and then widened to `std::ptrdiff_t`. -/
def diff (i j : IteratorCore) : Int := wrap32 (i.current_ - j.current_)

/-- Compound addition `iterator += n`: same stored result as `add`. -/
def addAssign (i : IteratorCore) (n : Int) : IteratorCore := add i n

/-- Compound subtraction `iterator -= n`: same stored result as `sub`. -/
def subAssign (i : IteratorCore) (n : Int) : IteratorCore := sub i n

/-- Global `operator+(n, iterator)`, defined as `i + n`. -/
def addLeft (n : Int) (i : IteratorCore) : IteratorCore := add i n

/-- Subscript `iterator[n]`, defined in the source as `*(*this + n)`. -/
def subscript (i : IteratorCore) (n : Int) : Ref := deref (add i n)

end IteratorCore

/-! ### The For mixin (src/include/iterable/iterable.h), synthesized path -/

namespace For

/-- Mutable `begin()`: `Iterator<D>(This(), 0)`. -/
def begin (h : Host) : IteratorCore := ⟨h.id, false, 0⟩

/-- Const `begin() const`: `Iterator<const D>(This(), 0)`. -/
def beginConst (h : Host) : IteratorCore := ⟨h.id, true, 0⟩

/-- Const `cbegin()`: delegates to `begin()` on the const path. -/
def cbegin (h : Host) : IteratorCore := beginConst h

/-- Mutable `end()`: `Iterator<D>(This(), This()->Length())`; the length
value is narrowed to the `int` constructor parameter. -/
def endMut (h : Host) : IteratorCore := ⟨h.id, false, wrap32 (h.length : Int)⟩

/-- Const `end() const`: `Iterator<const D>(This(), This()->Length())`. -/
def endConst (h : Host) : IteratorCore := ⟨h.id, true, wrap32 (h.length : Int)⟩

/-- Const `cend()`: delegates to `end()` on the const path. -/
def cend (h : Host) : IteratorCore := endConst h

end For

/-! ### The stand-alone Iterable variant (src/include/iterable.h) -/

/-- State of `Iterable<D>::Iterator<S>`: the host reference `Self &self_`
(its identity and whether `S` is const-qualified) and the stored position
`std::uint64_t current_`. -/
structure UIterator where
  selfId : Nat
  selfConst : Bool
  current_ : Nat
deriving DecidableEq

namespace UIterator

/-- Dereference: `self_[current_]`. -/
def deref (u : UIterator) : Ref := ⟨u.selfId, (u.current_ : Int), u.selfConst⟩

/-- Prefix increment: `current_++` on the `std::uint64_t` field. -/
def inc (u : UIterator) : UIterator :=
  { u with current_ := uwrap64 ((u.current_ : Int) + 1) }

/-- Postfix increment: copy, advance, return the copy with the new state. -/
def incPost (u : UIterator) : UIterator × UIterator := (u, inc u)

/-- Prefix decrement: `current_--` on the `std::uint64_t` field. -/
def dec (u : UIterator) : UIterator :=
  { u with current_ := uwrap64 ((u.current_ : Int) - 1) }

/-- Postfix decrement: copy, step back, return the copy with the new state. -/
def decPost (u : UIterator) : UIterator × UIterator := (u, dec u)

/-- Addition `iterator + value`: `current_ + value` in `std::uint64_t`. -/
def add (u : UIterator) (n : Int) : UIterator :=
  { u with current_ := uwrap64 ((u.current_ : Int) + n) }

/-- Subtraction `iterator - value`: `current_ - value` in `std::uint64_t`. -/
def sub (u : UIterator) (n : Int) : UIterator :=
  { u with current_ := uwrap64 ((u.current_ : Int) - n) }

/-- Compound addition `iterator += value`. -/
def addAssign (u : UIterator) (n : Int) : UIterator := add u n

/-- Compound subtraction `iterator -= value`. -/
def subAssign (u : UIterator) (n : Int) : UIterator := sub u n

/-- Subscript `iterator[index]`: `self_[current_ + index]`, the index sum
formed in `std::uint64_t`. -/
def subscript (u : UIterator) (n : Int) : Ref :=
  ⟨u.selfId, ((uwrap64 ((u.current_ : Int) + n)) : Int), u.selfConst⟩

/-- Equality: `current_ == other.current_`. -/
def eqb (u v : UIterator) : Bool := decide (u.current_ = v.current_)

/-- Inequality, written in the source as `!operator==(other)`. -/
def neb (u v : UIterator) : Bool := !(eqb u v)

/-- Strict greater-than: `current_ > other.current_`. -/
def gtb (u v : UIterator) : Bool := decide (v.current_ < u.current_)

/-- Strict less-than: `current_ < other.current_`. -/
def ltb (u v : UIterator) : Bool := decide (u.current_ < v.current_)

/-- Relaxed greater-than, written in the source as `!operator<(other)`. -/
def geb (u v : UIterator) : Bool := !(ltb u v)

/-- Relaxed less-than, written in the source as `!operator>(other)`. -/
def leb (u v : UIterator) : Bool := !(gtb u v)

end UIterator

namespace UIterable

/-- Mutable `begin()`: `Iterator<Derived>(Cast(), 0)`. -/
def begin (h : Host) : UIterator := ⟨h.id, false, 0⟩

/-- The `begin() const` overload exactly as written in the source: it
names `Iterator<Derived>` (so `Self = Derived`, not `const Derived`),
which is the iterator type whose references are mutable; the call itself
tries to bind `const Derived &` to the `Derived &` constructor parameter.
We model the iterator value that type denotes. -/
def beginConstAsWritten (h : Host) : UIterator := ⟨h.id, false, 0⟩

/-- Mutable `end()`: `Iterator<Derived>(Cast(), Cast().GetLength())`, the
length converted to the `std::uint64_t` constructor parameter. -/
def endMut (h : Host) : UIterator := ⟨h.id, false, h.length % uint64Modulus⟩

end UIterable

/-! ### Delegation shortcut (For with a public data_ member) -/

/-- An underlying iterable handle (the public `data_` member of a host
that triggers `HasPubContainerS`): an ordinary container with elements. -/
structure Handle (E : Type) where
  elems : List E
deriving DecidableEq

/-- A native iterator of the handle: the handle contents with a cursor. -/
structure NativeIter (E : Type) where
  elems : List E
  pos : Nat
deriving DecidableEq

/-- Native `begin()` of the handle. -/
def Handle.beginIt {E : Type} (h : Handle E) : NativeIter E := ⟨h.elems, 0⟩

/-- Native `end()` of the handle. -/
def Handle.endIt {E : Type} (h : Handle E) : NativeIter E := ⟨h.elems, h.elems.length⟩

/-- A host whose public member `data_` is an iterable handle, so that
`For::HasPubContainerS` detects it at compile time. -/
structure DelegHost (E : Type) where
  data_ : Handle E
deriving DecidableEq

/-- The For mixin `begin()` on such a host: `This()->data_.begin()`. -/
def DelegHost.beginIt {E : Type} (h : DelegHost E) : NativeIter E := h.data_.beginIt

/-- The For mixin `end()` on such a host: `This()->data_.end()`. -/
def DelegHost.endIt {E : Type} (h : DelegHost E) : NativeIter E := h.data_.endIt

/-- Element sequence produced by iterating from `b` to `e`, advancing one
position at a time and dereferencing. -/
def iterSeq {E : Type} (b e : NativeIter E) : List E :=
  (b.elems.drop b.pos).take (e.pos - b.pos)

/-- Sequence obtained by iterating the host through the For mixin. -/
def hostSeq {E : Type} (h : DelegHost E) : List E :=
  iterSeq h.beginIt h.endIt

/-- Sequence obtained by iterating the underlying handle directly, the
formulation used by the spec sentence on delegation transparency. -/
def handleDirectSeq {E : Type} (h : Handle E) : List E :=
  iterSeq h.beginIt h.endIt

/-! ### Mutation through references -/

/-- Writing a value through a (mutable) element reference of a host whose
contents are `l`: the element the reference denotes is replaced. -/
def writeThrough (l : List Int) (r : Ref) (v : Int) : List Int :=
  l.set r.index.toNat v

/-! ### Navigation operations as a family (frame analysis) -/

/-- The navigation operations of `IteratorCore` that move an iterator. -/
inductive NavOp where
  | preInc
  | postInc
  | preDec
  | postDec
  | addInt (n : Int)
  | subInt (n : Int)
  | compAdd (n : Int)
  | compSub (n : Int)
deriving DecidableEq

/-- Effect of a navigation operation on the iterator state. -/
def navStep : NavOp → IteratorCore → IteratorCore
  | NavOp.preInc, i => i.inc
  | NavOp.postInc, i => (i.incPost).2
  | NavOp.preDec, i => i.dec
  | NavOp.postDec, i => (i.decPost).2
  | NavOp.addInt n, i => i.add n
  | NavOp.subInt n, i => i.sub n
  | NavOp.compAdd n, i => i.addAssign n
  | NavOp.compSub n, i => i.subAssign n

/-! ### Concrete instances used by counterexamples and witnesses -/

/-- A host whose length is exactly 2 to the power 31. -/
def hugeHost : Host := ⟨0, 2147483648⟩

/-- A host whose length is 2 to the power 31 plus one. -/
def overHost : Host := ⟨1, 2147483649⟩

/-- A small host of length 4. -/
def smallHost : Host := ⟨2, 4⟩

/-- The host of scenario S3, of length 3 with contents `[1, 2, 3]`. -/
def s3Host : Host := ⟨3, 3⟩

/-- An iterator at position 0 of host 0. -/
def baseIter : IteratorCore := ⟨0, false, 0⟩

/-- An iterator whose stored `int` position is the largest possible. -/
def maxIter : IteratorCore := ⟨0, false, 2147483647⟩

/-! ### Arithmetic helper lemmas -/

theorem wrap32_eq_of_range (x : Int) (h1 : -int32Bound ≤ x)
    (h2 : x < int32Bound) : wrap32 x = x := by
  unfold wrap32 int32Bound int32Modulus at *
  omega

theorem wrap32_wrap64 (x : Int) : wrap32 (wrap64 x) = wrap32 x := by
  unfold wrap32 wrap64 int32Bound int32Modulus int64Bound int64Modulus
  omega

theorem sub_add_cancel_core (p k : Int) :
    wrap32 (wrap64 (wrap32 (wrap64 (p + k)) - k)) = wrap32 p := by
  unfold wrap32 wrap64 int32Bound int32Modulus int64Bound int64Modulus
  omega

theorem diff_add_core (p k : Int) :
    wrap32 (wrap32 (wrap64 (p + k)) - p) = wrap32 k := by
  unfold wrap32 wrap64 int32Bound int32Modulus int64Bound int64Modulus
  omega

theorem usub_uadd_core (p : Nat) (k : Int) (hp : p < uint64Modulus) :
    uwrap64 ((uwrap64 ((p : Int) + k) : Int) - k) = p := by
  unfold uwrap64 int64Modulus uint64Modulus at *
  omega

theorem inc_dec_core (p : Int) : wrap32 (wrap32 (p + 1) - 1) = wrap32 p := by
  unfold wrap32 int32Bound int32Modulus
  omega

/-! ### Claims -/

/-- C1 (amended): for every host `H` whose length `n` is representable in
`int`, `begin(H)` is an iterator at position 0, `end(H)` is an iterator at
position `n`, the iterator difference `end(H) - begin(H)` equals `n`, and
for an empty host `begin == end`. -/
theorem claim_C1 (h : Host) (hn : (h.length : Int) < int32Bound) :
    (For.begin h).current_ = 0 ∧
    (For.endMut h).current_ = (h.length : Int) ∧
    IteratorCore.diff (For.endMut h) (For.begin h) = (h.length : Int) ∧
    (h.length = 0 → IteratorCore.eqb (For.begin h) (For.endMut h) = true) := by
  have hb : -int32Bound ≤ (h.length : Int) := by
    have := Int.natCast_nonneg h.length
    unfold int32Bound
    omega
  have hw : wrap32 (h.length : Int) = (h.length : Int) :=
    wrap32_eq_of_range _ hb hn
  refine ⟨rfl, ?_, ?_, ?_⟩
  · simpa [For.endMut] using hw
  · simp [IteratorCore.diff, For.endMut, For.begin, hw]
  · intro h0
    simp [IteratorCore.eqb, For.begin, For.endMut, h0, wrap32, int32Bound, int32Modulus]

/-- C1 witness at the concrete host of identity 9 and length 4. -/
theorem claim_C1_witness :
    ((((⟨9, 4⟩ : Host).length : Int) < int32Bound) ∧
     ((For.begin ⟨9, 4⟩).current_ = 0 ∧
      (For.endMut ⟨9, 4⟩).current_ = (((⟨9, 4⟩ : Host).length : Int)) ∧
      IteratorCore.diff (For.endMut ⟨9, 4⟩) (For.begin ⟨9, 4⟩) =
        (((⟨9, 4⟩ : Host).length : Int)) ∧
      ((⟨9, 4⟩ : Host).length = 0 →
        IteratorCore.eqb (For.begin ⟨9, 4⟩) (For.endMut ⟨9, 4⟩) = true))) :=
  ⟨by decide, claim_C1 ⟨9, 4⟩ (by decide)⟩

/-- C1 counterexample: for the host of length 2 to the power 31, the
narrowing of `Length()` to the `int` constructor parameter makes `end`
land at position minus 2 to the power 31, so neither is `end` at position
`n` nor does `end - begin` equal `n`. -/
theorem claim_C1_counterexample :
    (For.endMut hugeHost).current_ ≠ (hugeHost.length : Int) ∧
    IteratorCore.diff (For.endMut hugeHost) (For.begin hugeHost) ≠
      (hugeHost.length : Int) := by
  constructor <;> decide

/-- C2 (amended): for every host `H` of length `n` and every `k` in
`[0, n)` that is representable in `int`, dereferencing `begin(H) + k`
yields exactly the reference that the mutable indexed accessor of `H`
returns for index `k`. -/
theorem claim_C2 (h : Host) (k : Int) (hk0 : 0 ≤ k)
    (hkn : k < (h.length : Int)) (hfit : k < int32Bound) :
    IteratorCore.deref (IteratorCore.add (For.begin h) k) = Host.refAt h k := by
  have hw : wrap32 k = k := by
    refine wrap32_eq_of_range k ?_ hfit
    unfold int32Bound
    omega
  simp [IteratorCore.deref, IteratorCore.add, For.begin, Host.refAt,
    wrap32_wrap64, hw]

/-- C2 witness at the concrete host of length 4 and offset 2. -/
theorem claim_C2_witness :
    ((0 : Int) ≤ 2 ∧ (2 : Int) < (smallHost.length : Int) ∧
      (2 : Int) < int32Bound) ∧
    IteratorCore.deref (IteratorCore.add (For.begin smallHost) 2) =
      Host.refAt smallHost 2 :=
  ⟨⟨by decide, by decide, by decide⟩,
    claim_C2 smallHost 2 (by decide) (by decide) (by decide)⟩

/-- C2 counterexample: on the host of length 2 to the power 31 plus one,
the offset `k` equal to 2 to the power 31 lies in `[0, n)`, yet
dereferencing `begin + k` accesses index minus 2 to the power 31 rather
than index `k`. -/
theorem claim_C2_counterexample :
    ((0 : Int) ≤ 2147483648 ∧ (2147483648 : Int) < (overHost.length : Int)) ∧
    IteratorCore.deref (IteratorCore.add (For.begin overHost) 2147483648) ≠
      Host.refAt overHost 2147483648 := by
  refine ⟨⟨by decide, by decide⟩, ?_⟩
  decide

/-- C3: for a host exposing a public member `data_`, the mixin `begin`
and `end` return the native iterators of that handle, and iterating the
host yields exactly the same element sequence as iterating the handle
directly, namely the handle contents themselves. -/
theorem claim_C3 {E : Type} (h : DelegHost E) :
    DelegHost.beginIt h = Handle.beginIt h.data_ ∧
    DelegHost.endIt h = Handle.endIt h.data_ ∧
    hostSeq h = handleDirectSeq h.data_ ∧
    hostSeq h = h.data_.elems := by
  refine ⟨rfl, rfl, rfl, ?_⟩
  simp [hostSeq, iterSeq, DelegHost.beginIt, DelegHost.endIt,
    Handle.beginIt, Handle.endIt]

/-- C4 evaluation: on the For mixin path, const-view iterators yield
const references, mutable-view iterators yield mutable references, and
scenario S3 (writing 5 through the mutable iterator at position 1 of
`[1, 2, 3]`) leaves the host as `[1, 5, 3]`.  On the stand-alone
`Iterable` variant, however, the `begin() const` overload as written
names `Iterator<Derived>`, whose references are mutable, so the const
path there does not produce const references (and its construction,
binding `const Derived &` to `Derived &`, is ill-formed). -/
theorem claim_C4_bug :
    (IteratorCore.deref (IteratorCore.add (For.beginConst s3Host) 1)).isConst
      = true ∧
    (IteratorCore.deref (IteratorCore.add (For.cbegin s3Host) 1)).isConst
      = true ∧
    (IteratorCore.deref (IteratorCore.add (For.begin s3Host) 1)).isConst
      = false ∧
    writeThrough [1, 2, 3]
      (IteratorCore.deref (IteratorCore.add (For.begin s3Host) 1)) 5
      = [1, 5, 3] ∧
    (UIterator.deref (UIterable.beginConstAsWritten s3Host)).isConst = false := by
  refine ⟨by decide, by decide, by decide, ?_, by decide⟩
  decide

/-- C5: for any two iterators (of either variant, over any hosts),
exactly one of less-than, equal, greater-than holds; every comparison
operator agrees with the comparison of the stored positions; equality
holds iff the positions coincide; and none of this depends on the host
back-reference or constness parameters, which the statement quantifies
independently on both sides. -/
theorem claim_C5 (d e : Nat) (c b : Bool) (p q : Int) (m r : Nat) :
    ((IteratorCore.ltb ⟨d, c, p⟩ ⟨e, b, q⟩ = true ∧
      IteratorCore.eqb ⟨d, c, p⟩ ⟨e, b, q⟩ = false ∧
      IteratorCore.gtb ⟨d, c, p⟩ ⟨e, b, q⟩ = false) ∨
     (IteratorCore.ltb ⟨d, c, p⟩ ⟨e, b, q⟩ = false ∧
      IteratorCore.eqb ⟨d, c, p⟩ ⟨e, b, q⟩ = true ∧
      IteratorCore.gtb ⟨d, c, p⟩ ⟨e, b, q⟩ = false) ∨
     (IteratorCore.ltb ⟨d, c, p⟩ ⟨e, b, q⟩ = false ∧
      IteratorCore.eqb ⟨d, c, p⟩ ⟨e, b, q⟩ = false ∧
      IteratorCore.gtb ⟨d, c, p⟩ ⟨e, b, q⟩ = true)) ∧
    IteratorCore.ltb ⟨d, c, p⟩ ⟨e, b, q⟩ = decide (p < q) ∧
    IteratorCore.eqb ⟨d, c, p⟩ ⟨e, b, q⟩ = decide (p = q) ∧
    IteratorCore.gtb ⟨d, c, p⟩ ⟨e, b, q⟩ = decide (q < p) ∧
    IteratorCore.leb ⟨d, c, p⟩ ⟨e, b, q⟩ = decide (p ≤ q) ∧
    IteratorCore.geb ⟨d, c, p⟩ ⟨e, b, q⟩ = decide (q ≤ p) ∧
    IteratorCore.neb ⟨d, c, p⟩ ⟨e, b, q⟩ = decide (¬ p = q) ∧
    (IteratorCore.eqb ⟨d, c, p⟩ ⟨e, b, q⟩ = true ↔ p = q) ∧
    ((UIterator.ltb ⟨d, c, m⟩ ⟨e, b, r⟩ = true ∧
      UIterator.eqb ⟨d, c, m⟩ ⟨e, b, r⟩ = false ∧
      UIterator.gtb ⟨d, c, m⟩ ⟨e, b, r⟩ = false) ∨
     (UIterator.ltb ⟨d, c, m⟩ ⟨e, b, r⟩ = false ∧
      UIterator.eqb ⟨d, c, m⟩ ⟨e, b, r⟩ = true ∧
      UIterator.gtb ⟨d, c, m⟩ ⟨e, b, r⟩ = false) ∨
     (UIterator.ltb ⟨d, c, m⟩ ⟨e, b, r⟩ = false ∧
      UIterator.eqb ⟨d, c, m⟩ ⟨e, b, r⟩ = false ∧
      UIterator.gtb ⟨d, c, m⟩ ⟨e, b, r⟩ = true)) ∧
    UIterator.geb ⟨d, c, m⟩ ⟨e, b, r⟩ = decide (r ≤ m) ∧
    UIterator.leb ⟨d, c, m⟩ ⟨e, b, r⟩ = decide (m ≤ r) ∧
    UIterator.neb ⟨d, c, m⟩ ⟨e, b, r⟩ = decide (¬ m = r) ∧
    (UIterator.eqb ⟨d, c, m⟩ ⟨e, b, r⟩ = true ↔ m = r) := by
  refine ⟨?_, rfl, rfl, rfl, rfl, rfl, rfl, ?_, ?_, ?_, ?_, ?_, ?_⟩
  · simp only [IteratorCore.ltb, IteratorCore.eqb, IteratorCore.gtb,
      decide_eq_true_eq, decide_eq_false_iff_not]
    omega
  · simp only [IteratorCore.eqb, decide_eq_true_eq]
  · simp only [UIterator.ltb, UIterator.eqb, UIterator.gtb,
      decide_eq_true_eq, decide_eq_false_iff_not]
    omega
  · simp only [UIterator.geb, UIterator.ltb, ← decide_not, decide_eq_decide]
    omega
  · simp only [UIterator.leb, UIterator.gtb, ← decide_not, decide_eq_decide]
    omega
  · simp only [UIterator.neb, UIterator.eqb, ← decide_not]
  · simp only [UIterator.eqb, decide_eq_true_eq]

/-- C6: for every host of length `n`, every `k` in `[0, n)` and every
iterator at position `p` with `p + k` in `[0, n)`, the subscript `i[k]`
yields the same element reference as dereferencing `i + k`; likewise for
the stand-alone variant. -/
theorem claim_C6 (h : Host) (i : IteratorCore) (u : UIterator) (k : Int)
    (hk0 : 0 ≤ k) (hkn : k < (h.length : Int))
    (hp0 : 0 ≤ i.current_ + k) (hpn : i.current_ + k < (h.length : Int)) :
    IteratorCore.subscript i k = IteratorCore.deref (IteratorCore.add i k) ∧
    UIterator.subscript u k = UIterator.deref (UIterator.add u k) :=
  ⟨rfl, rfl⟩

/-- C6 witness at the host of length 4, iterators at position 1, offset 1. -/
theorem claim_C6_witness :
    ((0 : Int) ≤ 1 ∧ (1 : Int) < (smallHost.length : Int) ∧
     0 ≤ (⟨2, false, 1⟩ : IteratorCore).current_ + 1 ∧
     (⟨2, false, 1⟩ : IteratorCore).current_ + 1 < (smallHost.length : Int)) ∧
    (IteratorCore.subscript ⟨2, false, 1⟩ 1 =
       IteratorCore.deref (IteratorCore.add ⟨2, false, 1⟩ 1) ∧
     UIterator.subscript ⟨2, false, 1⟩ 1 =
       UIterator.deref (UIterator.add ⟨2, false, 1⟩ 1)) :=
  ⟨⟨by decide, by decide, by decide, by decide⟩,
    claim_C6 smallHost ⟨2, false, 1⟩ ⟨2, false, 1⟩ 1
      (by decide) (by decide) (by decide) (by decide)⟩

/-- C7 (amended): `(i + k) - k = i` for every iterator and every offset
`k` (also on the stand-alone variant), and `(i + k) - i = k` for every
offset `k` representable in `int`. -/
theorem claim_C7 (i : IteratorCore) (k kf : Int) (u : UIterator)
    (h1 : -int32Bound ≤ i.current_) (h2 : i.current_ < int32Bound)
    (hk1 : -int32Bound ≤ kf) (hk2 : kf < int32Bound)
    (hu : u.current_ < uint64Modulus) :
    IteratorCore.sub (IteratorCore.add i k) k = i ∧
    IteratorCore.diff (IteratorCore.add i kf) i = kf ∧
    UIterator.sub (UIterator.add u k) k = u := by
  refine ⟨?_, ?_, ?_⟩
  · obtain ⟨dd, cc, pp⟩ := i
    dsimp only at h1 h2
    simp only [IteratorCore.add, IteratorCore.sub, IteratorCore.mk.injEq,
      true_and]
    rw [sub_add_cancel_core]
    exact wrap32_eq_of_range _ h1 h2
  · simp only [IteratorCore.diff, IteratorCore.add]
    rw [diff_add_core]
    exact wrap32_eq_of_range _ hk1 hk2
  · obtain ⟨ss, sc, pp⟩ := u
    dsimp only at hu
    simp only [UIterator.add, UIterator.sub, UIterator.mk.injEq, true_and]
    exact usub_uadd_core pp k hu

/-- C7 witness at position 5 (and 3), large offset 2 to the power 40,
int-representable offset 7. -/
theorem claim_C7_witness :
    (-int32Bound ≤ (⟨0, false, 5⟩ : IteratorCore).current_ ∧
     (⟨0, false, 5⟩ : IteratorCore).current_ < int32Bound ∧
     -int32Bound ≤ (7 : Int) ∧ (7 : Int) < int32Bound ∧
     (⟨0, false, 3⟩ : UIterator).current_ < uint64Modulus) ∧
    (IteratorCore.sub (IteratorCore.add ⟨0, false, 5⟩ 1099511627776)
       1099511627776 = ⟨0, false, 5⟩ ∧
     IteratorCore.diff (IteratorCore.add ⟨0, false, 5⟩ 7) ⟨0, false, 5⟩ = 7 ∧
     UIterator.sub (UIterator.add ⟨0, false, 3⟩ 1099511627776)
       1099511627776 = ⟨0, false, 3⟩) :=
  ⟨⟨by decide, by decide, by decide, by decide, by decide⟩,
    claim_C7 ⟨0, false, 5⟩ 1099511627776 7 ⟨0, false, 3⟩
      (by decide) (by decide) (by decide) (by decide) (by decide)⟩

/-- C7 counterexample: at the iterator at position 0 with the offset 2 to
the power 31, the difference `(i + k) - i` is minus 2 to the power 31,
not `k`. -/
theorem claim_C7_counterexample :
    IteratorCore.diff (IteratorCore.add baseIter 2147483648) baseIter ≠
      (2147483648 : Int) := by
  decide

/-- C8 (amended): for every iterator (the stored position being an `int`
value), prefix increment followed by prefix decrement restores the
iterator, the same round trip holds for the postfix forms, the postfix
forms return an iterator at the original position, and increment and
decrement advance the position by exactly plus and minus one whenever the
new position does not leave the `int` range. -/
theorem claim_C8 (i : IteratorCore)
    (h1 : -int32Bound ≤ i.current_) (h2 : i.current_ < int32Bound) :
    IteratorCore.dec (IteratorCore.inc i) = i ∧
    (IteratorCore.decPost (IteratorCore.incPost i).2).2 = i ∧
    (IteratorCore.incPost i).1 = i ∧
    (IteratorCore.decPost i).1 = i ∧
    (i.current_ + 1 < int32Bound →
      (IteratorCore.inc i).current_ = i.current_ + 1) ∧
    (-int32Bound ≤ i.current_ - 1 →
      (IteratorCore.dec i).current_ = i.current_ - 1) := by
  obtain ⟨dd, cc, pp⟩ := i
  dsimp only at h1 h2
  refine ⟨?_, ?_, rfl, rfl, ?_, ?_⟩
  · simp only [IteratorCore.inc, IteratorCore.dec, IteratorCore.mk.injEq,
      true_and]
    rw [inc_dec_core]
    exact wrap32_eq_of_range _ h1 h2
  · simp only [IteratorCore.incPost, IteratorCore.decPost,
      IteratorCore.inc, IteratorCore.dec, IteratorCore.mk.injEq, true_and]
    rw [inc_dec_core]
    exact wrap32_eq_of_range _ h1 h2
  · intro hup
    dsimp only at hup ⊢
    simp only [IteratorCore.inc]
    refine wrap32_eq_of_range _ ?_ hup
    unfold int32Bound at *
    omega
  · intro hdown
    dsimp only at hdown ⊢
    simp only [IteratorCore.dec]
    refine wrap32_eq_of_range _ hdown ?_
    unfold int32Bound at *
    omega

/-- C8 witness at the iterator of position 5. -/
theorem claim_C8_witness :
    (-int32Bound ≤ (⟨0, false, 5⟩ : IteratorCore).current_ ∧
     (⟨0, false, 5⟩ : IteratorCore).current_ < int32Bound) ∧
    (IteratorCore.dec (IteratorCore.inc ⟨0, false, 5⟩) = ⟨0, false, 5⟩ ∧
     (IteratorCore.decPost (IteratorCore.incPost ⟨0, false, 5⟩).2).2 =
       ⟨0, false, 5⟩ ∧
     (IteratorCore.incPost ⟨0, false, 5⟩).1 = ⟨0, false, 5⟩ ∧
     (IteratorCore.decPost ⟨0, false, 5⟩).1 = ⟨0, false, 5⟩ ∧
     ((⟨0, false, 5⟩ : IteratorCore).current_ + 1 < int32Bound →
       (IteratorCore.inc ⟨0, false, 5⟩).current_ =
         (⟨0, false, 5⟩ : IteratorCore).current_ + 1) ∧
     (-int32Bound ≤ (⟨0, false, 5⟩ : IteratorCore).current_ - 1 →
       (IteratorCore.dec ⟨0, false, 5⟩).current_ =
         (⟨0, false, 5⟩ : IteratorCore).current_ - 1)) :=
  ⟨⟨by decide, by decide⟩, claim_C8 ⟨0, false, 5⟩ (by decide) (by decide)⟩

/-- C8 counterexample: at the iterator whose position is the largest
`int` value, the increment does not advance the position by plus one (it
wraps to minus 2 to the power 31). -/
theorem claim_C8_counterexample :
    (IteratorCore.inc maxIter).current_ ≠ maxIter.current_ + 1 := by
  decide

/-- C9: every navigation operation preserves the host pointer and the
constness parameter; the resulting position depends only on the stored
position, never on the host (the host is not an input of any navigation
step); and the comparison operators and the iterator difference are
functions of the two stored positions alone. -/
theorem claim_C9 :
    (∀ (op : NavOp) (i : IteratorCore),
      (navStep op i).data_ = i.data_ ∧ (navStep op i).constD = i.constD) ∧
    (∀ (op : NavOp) (d e : Nat) (c b : Bool) (p : Int),
      (navStep op ⟨d, c, p⟩).current_ = (navStep op ⟨e, b, p⟩).current_) ∧
    (∀ (d e : Nat) (c b : Bool) (p q : Int),
      IteratorCore.eqb ⟨d, c, p⟩ ⟨e, b, q⟩ = decide (p = q) ∧
      IteratorCore.ltb ⟨d, c, p⟩ ⟨e, b, q⟩ = decide (p < q) ∧
      IteratorCore.diff ⟨d, c, p⟩ ⟨e, b, q⟩ = wrap32 (p - q)) := by
  refine ⟨?_, ?_, ?_⟩
  · intro op i
    cases op <;> exact ⟨rfl, rfl⟩
  · intro op d e c b p
    cases op <;> rfl
  · intro d e c b p q
    exact ⟨rfl, rfl, rfl⟩

/-- C10: the stored position of `IteratorCore` is a machine `int` while
the arithmetic accepts `std::ptrdiff_t`: `i + k` stores `p + k` reduced to
32-bit two's complement (concretely, at the largest `int` position plus
one the stored value is minus 2 to the power 31, not the mathematical
sum); and whenever positions, offsets and the host length fit in `int`,
the stored position is the mathematical sum and the addressing and
distance laws hold. -/
theorem claim_C10 (d : Nat) (c : Bool) (p k kf : Int) (h : Host)
    (hf1 : -int32Bound ≤ p + kf) (hf2 : p + kf < int32Bound)
    (hlen : (h.length : Int) < int32Bound) :
    ((IteratorCore.add ⟨d, c, p⟩ k).current_ = wrap32 (wrap64 (p + k))) ∧
    ((IteratorCore.add ⟨0, false, 2147483647⟩ 1).current_ = -2147483648 ∧
      ((-2147483648 : Int) ≠ 2147483647 + 1)) ∧
    ((IteratorCore.add ⟨d, c, p⟩ kf).current_ = p + kf) ∧
    (IteratorCore.diff (For.endMut h) (For.begin h) = (h.length : Int)) := by
  refine ⟨rfl, ⟨by decide, by decide⟩, ?_, ?_⟩
  · simp only [IteratorCore.add]
    rw [wrap32_wrap64]
    exact wrap32_eq_of_range _ hf1 hf2
  · have hb : -int32Bound ≤ (h.length : Int) := by
      have := Int.natCast_nonneg h.length
      unfold int32Bound
      omega
    have hw : wrap32 (h.length : Int) = (h.length : Int) :=
      wrap32_eq_of_range _ hb hlen
    simp [IteratorCore.diff, For.endMut, For.begin, hw]

/-- C10 witness at position 1, arbitrary offset 2 to the power 40,
fitting offset 2, and the host of length 4. -/
theorem claim_C10_witness :
    (-int32Bound ≤ (1 : Int) + 2 ∧ (1 : Int) + 2 < int32Bound ∧
     (smallHost.length : Int) < int32Bound) ∧
    (((IteratorCore.add ⟨7, false, 1⟩ 1099511627776).current_ =
        wrap32 (wrap64 (1 + 1099511627776))) ∧
     ((IteratorCore.add ⟨0, false, 2147483647⟩ 1).current_ = -2147483648 ∧
       ((-2147483648 : Int) ≠ 2147483647 + 1)) ∧
     ((IteratorCore.add ⟨7, false, 1⟩ 2).current_ = 1 + 2) ∧
     (IteratorCore.diff (For.endMut smallHost) (For.begin smallHost) =
       (smallHost.length : Int))) :=
  ⟨⟨by decide, by decide, by decide⟩,
    claim_C10 7 false 1 1099511627776 2 smallHost
      (by decide) (by decide) (by decide)⟩

end IterableCpp
